import Mathlib

/-!
Shallow embedding of the librescoot ums-service.

The Go sources are translated into pure Lean functions.  External effects
(kernel module loading, mounting, Redis publications, file copies, queue
pushes, LED pushes) are recorded in an explicit event trace; fallible
external operations are driven by an environment of success flags.  File
names are lists of characters, mirroring Go string operations
(strings.HasPrefix / HasSuffix / Contains) with structurally recursive
functions.
-/

/-! ## File-name strings (Go `strings` helpers) -/

abbrev FName := List Char

/-- Go strings.HasPrefix s pre. -/
def hasPrefixF : FName → FName → Bool
  | _, [] => true
  | [], _ :: _ => false
  | c :: s, p :: ps => (c == p) && hasPrefixF s ps

/-- Go strings.HasSuffix s suf. -/
def hasSuffixF (s suf : FName) : Bool :=
  hasPrefixF s.reverse suf.reverse

/-- Go strings.Contains s sub. -/
def containsF : FName → FName → Bool
  | [], sub => hasPrefixF [] sub
  | c :: rest, sub => hasPrefixF (c :: rest) sub || containsF rest sub

/-- Go filepath.Join d n for an absolute directory d and bare file name n. -/
def joinP (d n : FName) : FName := d ++ ('/' :: n)

/-! ## Events and results -/

/-- One externally visible action of the service. -/
inductive Event where
  | diskMount
  | diskUnmount
  | diskClean
  | statusSet (st : String)
  | ledSet (pat : String)
  | gadgetSwitch (mode : String)
  | stageOutSettings
  | prepUpdateDir
  | prepMapsDir
  | prepWgDir
  | stageOutWg
  | stageInSettings (changed : Bool)
  | stageInWg (changed : Bool)
  | restartSettingsService
  | dbcEnable
  | dbcDisable
  | mkdirDir (p : FName)
  | copy (src dst : FName)
  | fsync (p : FName)
  | fsRemove (p : FName)
  | queuePush (queue : String) (msg : FName)
  | dbcAttempt (name : FName)
  | dbcRunCmd (cmd : FName)
  | dbcCopy (src dst : FName)
  | processMapsRun
  | modePublish (m : String)
deriving DecidableEq

/-- Error kinds surfaced by the embedded operations. -/
inductive Err where
  | mountErr
  | unmountErr
  | switchErr
  | unknownMode
  | dbcNotEnabled
deriving DecidableEq

/-- Result of a fallible operation (Go `error` return). -/
inductive Res where
  | ok
  | err (e : Err)
deriving DecidableEq

/-- The events blk occur consecutively somewhere in tr. -/
def ContainsBlock (blk tr : List Event) : Prop :=
  ∃ a b, tr = a ++ (blk ++ b)

/-- Event x occurs strictly before event y in tr. -/
def seqBefore (x y : Event) (tr : List Event) : Prop :=
  ∃ a b c, tr = a ++ x :: (b ++ y :: c)

/-! ## USB host-link monitor (pkg/usb controller, monitorLoop) -/

/-- One poll of the monitor loop: the gadget mode it read and whether the
UDC state file read "configured". -/
structure Sample where
  mode : String
  configured : Bool
deriving DecidableEq

/-- Outcome of one iteration of monitorLoop: new wasConfigured bit, new
channel occupancy, and whether a detach event was emitted. -/
structure MonStep where
  wasConfigured : Bool
  pending : Nat
  emitted : Bool
deriving DecidableEq

/-- Capacity of detachCh, from `make(chan struct\x7b\x7d, 1)` in NewController. -/
def chanCap : Nat := 1

/-- Nonblocking send on detachCh: `select ... default` drops when full. -/
def chanSend (p : Nat) : Nat :=
  if p < chanCap then p + 1 else p

/-- One iteration of Controller.monitorLoop over wasConfigured w and channel
occupancy p, given the sampled mode and UDC state. -/
def monitorStep (w : Bool) (p : Nat) (s : Sample) : MonStep :=
  if s.mode ≠ ("ums") then ⟨false, p, false⟩
  else if s.configured then ⟨true, p, false⟩
  else if w then ⟨false, chanSend p, true⟩
  else ⟨false, p, false⟩

/-! ## Settings loader (pkg/settings/loader.go) -/

/-- The two files settings.Loader.CopyFromUSB reads/writes: the bytes of
`<mount>/settings.toml` (none = absent) and those of /data/settings.toml
(none = unreadable). -/
structure SettingsFs where
  usbFile : Option (List Nat)
  localFile : Option (List Nat)
deriving DecidableEq

/-- settings.Loader.CopyFromUSB: resulting file state and the changed flag. -/
def CopyFromUSB (fs : SettingsFs) : SettingsFs × Bool :=
  match fs.usbFile with
  | none => (fs, false)
  | some input =>
    let changed : Bool :=
      match fs.localFile with
      | some existing => !(existing == input)
      | none => true
    if changed then ({ fs with localFile := some input }, true) else (fs, false)

/-! ## Update loader (pkg/update/loader.go) -/

/-- One result of os.ReadDir: a name and whether the entry is a directory. -/
structure DirEntry where
  name : FName
  isDir : Bool
deriving DecidableEq

def updDir : FName := ("/mnt/usb-drive-temp/system-update").data
def otaDir : FName := ("/data/ota").data
def mdbMark : FName := ("librescoot-mdb").data
def dbcMark : FName := ("librescoot-dbc").data
def updPre : FName := ("librescoot-").data
def sufMender : FName := (".mender").data
def sufDelta : FName := (".delta").data

/-- The filename filter of Loader.ProcessUpdates. -/
def updMatch (n : FName) : Bool :=
  hasPrefixF n updPre && (hasSuffixF n sufMender || hasSuffixF n sufDelta)

/-- Message pushed to scooter:update:mdb for file n. -/
def mdbMsg (n : FName) : FName :=
  ("update-from-file:").data ++ joinP otaDir n

/-- Loader.processMDBUpdate on file n: mkdir /data/ota, copy (open, create,
io.Copy, out.Sync), then LPush.  The copy path never removes or renames the
source. -/
def processMDBUpdate (n : FName) : List Event :=
  [Event.mkdirDir otaDir,
   Event.copy (joinP updDir n) (joinP otaDir n),
   Event.fsync (joinP otaDir n),
   Event.queuePush ("scooter:update:mdb") (mdbMsg n)]

/-- Message pushed to scooter:update:dbc for file n. -/
def dbcMsg (n : FName) : FName :=
  ("update-from-file:").data ++ joinP otaDir n

/-- Loader.processDBCUpdate on file n: fails with dbcNotEnabled when the DBC
interface is not enabled, otherwise runs the remote mkdir, the scp copy and
the LPush. -/
def processDBCUpdate (n : FName) (en : Bool) : List Event × Res :=
  if en then
    ([Event.dbcAttempt n,
      Event.dbcRunCmd (("mkdir -p /data/ota").data),
      Event.dbcCopy (joinP updDir n) (joinP otaDir n),
      Event.queuePush ("scooter:update:dbc") (dbcMsg n)], Res.ok)
  else
    ([Event.dbcAttempt n], Res.err Err.dbcNotEnabled)

/-- The loop body of Loader.ProcessUpdates over the directory entries.  A
failing processDBCUpdate aborts the remaining entries, as in the source. -/
def processEntries : List DirEntry → Bool → List Event × Res
  | [], _ => ([], Res.ok)
  | e :: rest, en =>
    if e.isDir then processEntries rest en
    else if updMatch e.name then
      if containsF e.name mdbMark then
        let r := processEntries rest en
        (processMDBUpdate e.name ++ r.1, r.2)
      else if containsF e.name dbcMark then
        let d := processDBCUpdate e.name en
        match d.2 with
        | Res.ok => let r := processEntries rest en; (d.1 ++ r.1, r.2)
        | Res.err er => (d.1, Res.err er)
      else processEntries rest en
    else processEntries rest en

/-- Loader.ProcessUpdates: a missing system-update directory is not an
error. -/
def ProcessUpdates (d : Option (List DirEntry)) (en : Bool) : List Event × Res :=
  match d with
  | none => ([], Res.ok)
  | some es => processEntries es en

/-! ## DBC-needed scan (Service.checkIfDBCNeeded) -/

/-- Contents of the mounted image as the return-to-normal path reads it. -/
structure Fs where
  sysUpdate : Option (List DirEntry)
  mapsDir : Option (List DirEntry)
deriving DecidableEq

/-- The system-update part of checkIfDBCNeeded: a librescoot-dbc*.mender
file is present. -/
def sysScan (d : Option (List DirEntry)) : Bool :=
  match d with
  | some es => es.any (fun e => !e.isDir && hasPrefixF e.name dbcMark && hasSuffixF e.name sufMender)
  | none => false

/-- The maps part of checkIfDBCNeeded: a *.mbtiles or *tiles.tar file is
present. -/
def mapsScan (d : Option (List DirEntry)) : Bool :=
  match d with
  | some es => es.any (fun e => !e.isDir && (hasSuffixF e.name ((".mbtiles").data) || hasSuffixF e.name (("tiles.tar").data)))
  | none => false

/-- Service.checkIfDBCNeeded. -/
def checkIfDBCNeeded (fs : Fs) : Bool :=
  sysScan fs.sysUpdate || mapsScan fs.mapsDir

/-! ## The service state machine (internal/service/service.go) -/

/-- Success of the external operations a single transition performs, plus
the disk contents and the stage-in changed flags it observes. -/
structure Env where
  mountOk : Bool
  unmountOk : Bool
  loadUmsOk : Bool
  loadNormalOk : Bool
  dbcEnableOk : Bool
  settingsChanged : Bool
  wgChanged : Bool
  fs : Fs
deriving DecidableEq

/-- The mutable state of Service and its usb.Controller: the controller's
currentMode, the service's umsModeType and detachCount, the last published
status, and the disk-image / DBC-interface states. -/
structure SvcState where
  gadgetMode : String
  umsModeType : String
  detachCount : Nat
  status : String
  diskMounted : Bool
  dbcEnabled : Bool
deriving DecidableEq

/-- State at daemon start: controller initialised to "normal". -/
def initState : SvcState :=
  ⟨("normal"), (""), 0, ("idle"), false, false⟩

/-- usb.Controller.SwitchMode: no-op when already in the target mode,
otherwise unload/load the gadget modules (the load may fail). -/
def SwitchMode (env : Env) (st : SvcState) (target : String) : SvcState × List Event × Res :=
  if st.gadgetMode = target then (st, [], Res.ok)
  else if target = ("ums") then
    if env.loadUmsOk then ({ st with gadgetMode := ("ums") }, [Event.gadgetSwitch ("ums")], Res.ok)
    else (st, [Event.gadgetSwitch ("ums")], Res.err Err.switchErr)
  else if target = ("normal") then
    if env.loadNormalOk then ({ st with gadgetMode := ("normal") }, [Event.gadgetSwitch ("normal")], Res.ok)
    else (st, [Event.gadgetSwitch ("normal")], Res.err Err.switchErr)
  else (st, [], Res.err Err.unknownMode)

/-- Service.setStatus: publish usb.status (publish errors are only logged). -/
def setStatus (st : SvcState) (s : String) : SvcState × List Event :=
  ({ st with status := s }, [Event.statusSet s])

/-- Service.switchToUMS. -/
def switchToUMS (env : Env) (st : SvcState) (mode : String) : SvcState × List Event × Res :=
  let p1 := setStatus st ("preparing")
  if env.mountOk then
    let st2 := { p1.1 with diskMounted := true }
    let stOut : List Event :=
      [Event.stageOutSettings, Event.prepUpdateDir, Event.prepMapsDir, Event.prepWgDir, Event.stageOutWg]
    if env.unmountOk then
      let st3 := { st2 with diskMounted := false }
      let p4 := setStatus st3 ("active")
      let sw := SwitchMode env p4.1 ("ums")
      match sw.2.2 with
      | Res.ok =>
        ({ sw.1 with umsModeType := mode, detachCount := 0 },
         p1.2 ++ [Event.diskMount] ++ stOut ++ [Event.diskUnmount] ++ p4.2
           ++ [Event.ledSet ("umsActive")] ++ sw.2.1,
         Res.ok)
      | Res.err _ =>
        let p6 := setStatus sw.1 ("idle")
        (p6.1,
         p1.2 ++ [Event.diskMount] ++ stOut ++ [Event.diskUnmount] ++ p4.2
           ++ [Event.ledSet ("umsActive")] ++ sw.2.1 ++ p6.2 ++ [Event.ledSet ("off")],
         Res.err Err.switchErr)
    else
      let p3 := setStatus st2 ("idle")
      (p3.1, p1.2 ++ [Event.diskMount] ++ stOut ++ [Event.diskUnmount] ++ p3.2, Res.err Err.unmountErr)
  else
    let p2 := setStatus p1.1 ("idle")
    (p2.1, p1.2 ++ [Event.diskMount] ++ p2.2, Res.err Err.mountErr)

/-- Service.switchToNormal. -/
def switchToNormal (env : Env) (st : SvcState) (prevMode : String) : SvcState × List Event × Res :=
  let eLed : List Event := [Event.ledSet ("off")]
  let sw := SwitchMode env st ("normal")
  match sw.2.2 with
  | Res.err _ => (sw.1, eLed ++ sw.2.1, Res.err Err.switchErr)
  | Res.ok =>
    if prevMode ≠ ("ums") then
      let p2 := setStatus sw.1 ("idle")
      (p2.1, eLed ++ sw.2.1 ++ p2.2, Res.ok)
    else
      let p2 := setStatus sw.1 ("processing")
      if env.mountOk then
        let st3 := { p2.1 with diskMounted := true }
        let needDBC := checkIfDBCNeeded env.fs
        let st4 := if needDBC && env.dbcEnableOk then { st3 with dbcEnabled := true } else st3
        let eDbc : List Event := if needDBC then [Event.dbcEnable] else []
        let eStages : List Event :=
          [Event.stageInSettings env.settingsChanged, Event.stageInWg env.wgChanged]
        let upd := ProcessUpdates env.fs.sysUpdate st4.dbcEnabled
        let eRestart : List Event :=
          if env.settingsChanged || env.wgChanged then [Event.restartSettingsService] else []
        let st5 := if env.unmountOk then { st4 with diskMounted := false } else st4
        let st6 := if needDBC then { st5 with dbcEnabled := false } else st5
        let eDis : List Event := if needDBC then [Event.dbcDisable] else []
        let p8 := setStatus { st6 with umsModeType := ("") } ("idle")
        (p8.1,
         eLed ++ sw.2.1 ++ p2.2 ++ [Event.diskMount] ++ eDbc ++ eStages ++ upd.1
           ++ [Event.processMapsRun] ++ eRestart ++ [Event.diskClean] ++ [Event.diskUnmount]
           ++ eDis ++ p8.2,
         Res.ok)
      else
        let p3 := setStatus p2.1 ("idle")
        (p3.1, eLed ++ sw.2.1 ++ p2.2 ++ [Event.diskMount] ++ p3.2, Res.err Err.mountErr)

/-- Service.handleModeChange: dispatch on the requested mode, comparing it
with the controller's current gadget mode. -/
def handleModeChange (env : Env) (st : SvcState) (mode : String) : SvcState × List Event × Res :=
  if st.gadgetMode = mode then (st, [], Res.ok)
  else if mode = ("ums") ∨ mode = ("ums-by-dbc") then switchToUMS env st mode
  else if mode = ("normal") then switchToNormal env st st.gadgetMode
  else (st, [], Res.err Err.unknownMode)

/-- Service.doSwitchToNormal: switch (errors logged), reset detachCount,
republish usb.mode = normal. -/
def doSwitchToNormal (env : Env) (st : SvcState) : SvcState × List Event :=
  let r := switchToNormal env st st.gadgetMode
  ({ r.1 with detachCount := 0 }, r.2.1 ++ [Event.modePublish ("normal")])

/-- Service.onDeviceDetached. -/
def onDeviceDetached (env : Env) (st : SvcState) : SvcState × List Event :=
  if st.gadgetMode ≠ ("ums") then (st, [])
  else
    let st1 := { st with detachCount := st.detachCount + 1 }
    if st1.umsModeType = ("ums") then
      if st1.detachCount ≥ 1 then doSwitchToNormal env st1 else (st1, [])
    else if st1.umsModeType = ("ums-by-dbc") then
      if st1.detachCount = 1 then (st1, [Event.ledSet ("waitingPC")])
      else if st1.detachCount ≥ 2 then doSwitchToNormal env st1
      else (st1, [])
    else doSwitchToNormal env st1

/-- A fully succeeding environment over an empty disk. -/
def env0 : Env :=
  ⟨true, true, true, true, true, false, false, ⟨none, none⟩⟩

/-! ## Concrete runs used by the counterexample / bug theorems -/

/-- The state after a successful `ums` entry from the initial state. -/
def stUmsEntered : SvcState := (handleModeChange env0 initState ("ums")).1

/-- env0 with a failing DiskImage.mount. -/
def envMountFail : Env := ⟨false, true, true, true, true, false, false, ⟨none, none⟩⟩

/-- The state after entering `ums-by-dbc` and seeing one detach: still in
UMS with detachCount = 1. -/
def stDbcOneDetach : SvcState :=
  (onDeviceDetached env0 ((handleModeChange env0 initState ("ums-by-dbc")).1)).1

/-! ## Trace-counting helpers -/

/-- Number of pushes of message m onto scooter:update:mdb in a trace. -/
def mdbPushCount (m : FName) : List Event → Nat
  | [] => 0
  | Event.queuePush q msg :: rest =>
      (if q = ("scooter:update:mdb") ∧ msg = m then 1 else 0) + mdbPushCount m rest
  | _ :: rest => mdbPushCount m rest

/-- The directory entries that cause an MDB push of the message for f. -/
def mdbSel (f : FName) (e : DirEntry) : Bool :=
  !e.isDir && updMatch e.name && containsF e.name mdbMark && decide (e.name = f)

/-- The file name used in the concrete C8 instance. -/
def c8name : FName := ("librescoot-mdb-1.2.3.mender").data

/-! ## Concrete inputs for the DBC delta-file claim -/

def deltaName1 : FName := ("librescoot-dbc-v1.delta").data
def deltaName2 : FName := ("librescoot-dbc-v2.delta").data

/-- A disk whose system-update directory holds exactly two DBC .delta
files and whose maps directory is absent. -/
def fsDelta : Fs := ⟨some [⟨deltaName1, false⟩, ⟨deltaName2, false⟩], none⟩

def envDelta : Env := ⟨true, true, true, true, true, false, false, fsDelta⟩

/-- A state in UMS mode, as produced by a successful `ums` entry. -/
def stUms10 : SvcState := ⟨("ums"), ("ums"), 0, ("active"), false, false⟩

/-! ## Theorems -/

theorem containsBlock_append_left (blk t x : List Event) :
    ContainsBlock blk t → ContainsBlock blk (x ++ t) := by
  rintro ⟨a, b, rfl⟩
  exact ⟨x ++ a, b, by simp⟩

/-! ## Helper lemmas for the update-loader claims -/

theorem append_inj_right (C : FName) : ∀ {g f : FName}, C ++ g = C ++ f → g = f := by
  induction C with
  | nil => intro g f h; simpa using h
  | cons c cs ih => intro g f h; exact ih (by simpa using h)

theorem mdbMsg_inj {g f : FName} (h : mdbMsg g = mdbMsg f) : g = f := by
  apply append_inj_right ((("update-from-file:").data ++ otaDir) ++ [('/' : Char)])
  simpa [mdbMsg, joinP, List.append_assoc] using h

theorem mdbPushCount_append (m : FName) (a b : List Event) :
    mdbPushCount m (a ++ b) = mdbPushCount m a + mdbPushCount m b := by
  induction a with
  | nil => simp [mdbPushCount]
  | cons e t ih => cases e <;> simp [mdbPushCount, ih, Nat.add_assoc]

theorem processEntries_mdb_count (f : FName) (es : List DirEntry) :
    mdbPushCount (mdbMsg f) (processEntries es true).1 = List.countP (mdbSel f) es := by
  induction es with
  | nil => simp [processEntries, mdbPushCount]
  | cons e rest ih =>
    by_cases hd : e.isDir
    · simp [processEntries, hd, List.countP_cons, mdbSel, ih]
    · by_cases hm : updMatch e.name = true
      · by_cases hc : containsF e.name mdbMark = true
        · by_cases hnf : e.name = f
          · subst hnf
            simp [processEntries, hd, hm, hc, List.countP_cons, mdbSel,
              mdbPushCount_append, processMDBUpdate, mdbPushCount, ih]
            omega
          · have hmsg : ¬(mdbMsg e.name = mdbMsg f) := fun h => hnf (mdbMsg_inj h)
            simp [processEntries, hd, hm, hc, List.countP_cons, mdbSel, hnf,
              mdbPushCount_append, processMDBUpdate, mdbPushCount, hmsg, ih]
        · by_cases hb : containsF e.name dbcMark = true
          · simp [processEntries, hd, hm, hc, hb, processDBCUpdate, List.countP_cons,
              mdbSel, mdbPushCount_append, mdbPushCount, ih]
          · simp [processEntries, hd, hm, hc, hb, List.countP_cons, mdbSel, ih]
      · simp [processEntries, hd, hm, List.countP_cons, mdbSel, ih]

theorem processEntries_mdb_block (f : FName) (es : List DirEntry)
    (hmatch : updMatch f = true) (hmdb : containsF f mdbMark = true)
    (hmem : (⟨f, false⟩ : DirEntry) ∈ es) :
    ContainsBlock [Event.copy (joinP updDir f) (joinP otaDir f),
                   Event.fsync (joinP otaDir f),
                   Event.queuePush ("scooter:update:mdb") (mdbMsg f)]
      (processEntries es true).1 := by
  induction es with
  | nil => cases hmem
  | cons e rest ih =>
    rcases List.mem_cons.mp hmem with he | hrest
    · rw [← he]
      refine ⟨[Event.mkdirDir otaDir], (processEntries rest true).1, ?_⟩
      simp [processEntries, hmatch, hmdb, processMDBUpdate]
    · have hblk := ih hrest
      by_cases hd : e.isDir
      · simpa [processEntries, hd] using hblk
      · by_cases hm : updMatch e.name = true
        · by_cases hc : containsF e.name mdbMark = true
          · have := containsBlock_append_left _ _ (processMDBUpdate e.name) hblk
            simpa [processEntries, hd, hm, hc] using this
          · by_cases hb : containsF e.name dbcMark = true
            · have := containsBlock_append_left _ _ (processDBCUpdate e.name true).1 hblk
              simpa [processEntries, hd, hm, hc, hb, processDBCUpdate] using this
            · simpa [processEntries, hd, hm, hc, hb] using hblk
        · simpa [processEntries, hd, hm] using hblk

theorem processEntries_no_remove (es : List DirEntry) (en : Bool) (p : FName) :
    Event.fsRemove p ∉ (processEntries es en).1 := by
  induction es with
  | nil => simp [processEntries]
  | cons e rest ih =>
    by_cases hd : e.isDir
    · simpa [processEntries, hd] using ih
    · by_cases hm : updMatch e.name = true
      · by_cases hc : containsF e.name mdbMark = true
        · simp [processEntries, hd, hm, hc, processMDBUpdate, ih]
        · by_cases hb : containsF e.name dbcMark = true
          · cases en <;>
              simp [processEntries, hd, hm, hc, hb, processDBCUpdate, ih]
          · simpa [processEntries, hd, hm, hc, hb] using ih
      · simpa [processEntries, hd, hm] using ih

theorem processEntries_no_enable (es : List DirEntry) (en : Bool) :
    Event.dbcEnable ∉ (processEntries es en).1 := by
  induction es with
  | nil => simp [processEntries]
  | cons e rest ih =>
    by_cases hd : e.isDir
    · simpa [processEntries, hd] using ih
    · by_cases hm : updMatch e.name = true
      · by_cases hc : containsF e.name mdbMark = true
        · simp [processEntries, hd, hm, hc, processMDBUpdate, ih]
        · by_cases hb : containsF e.name dbcMark = true
          · cases en <;>
              simp [processEntries, hd, hm, hc, hb, processDBCUpdate, ih]
          · simpa [processEntries, hd, hm, hc, hb] using ih
      · simpa [processEntries, hd, hm] using ih

/-- C1: the claim says DiskImage.mount is never called between a successful
switch to ums and the following switch back to normal.  The code violates
this: a `ums-by-dbc` request received while the gadget mode is already
`ums` (entered as plain `ums`) runs the full switchToUMS, which calls
DiskImage.mount while the gadget still exports the image and never switches
the gadget to normal first. -/
theorem C1_mount_while_ums :
    stUmsEntered.gadgetMode = ("ums") ∧
    stUmsEntered.umsModeType = ("ums") ∧
    stUmsEntered.diskMounted = false ∧
    Event.gadgetSwitch ("normal") ∉ (handleModeChange env0 stUmsEntered ("ums-by-dbc")).2.1 ∧
    Event.diskMount ∈ (handleModeChange env0 stUmsEntered ("ums-by-dbc")).2.1 ∧
    (handleModeChange env0 stUmsEntered ("ums-by-dbc")).1.gadgetMode = ("ums") := by
  decide

/-- C2: the claim says a `ums`/`ums-by-dbc` request while already in UMS
performs no disk mount and no stage-out.  A request equal to the current
gadget mode string is indeed a no-op, but a `ums-by-dbc` request while the
gadget mode is `ums` re-runs the whole entry: it mounts the disk, runs the
stage-outs and unmounts again (the gadget switch itself is a no-op). -/
theorem C2_ums_request_reentry :
    stUmsEntered.gadgetMode = ("ums") ∧
    stUmsEntered.umsModeType = ("ums") ∧
    (handleModeChange env0 stUmsEntered ("ums")).2.1 = [] ∧
    Event.diskMount ∈ (handleModeChange env0 stUmsEntered ("ums-by-dbc")).2.1 ∧
    Event.stageOutSettings ∈ (handleModeChange env0 stUmsEntered ("ums-by-dbc")).2.1 ∧
    Event.diskUnmount ∈ (handleModeChange env0 stUmsEntered ("ums-by-dbc")).2.1 ∧
    (handleModeChange env0 stUmsEntered ("ums-by-dbc")).1.umsModeType = ("ums-by-dbc") := by
  decide

/-- C3: a detach while the gadget mode is not ums is dropped; under
umsModeType = ums the first detach (count goes to >= 1) triggers the
return to normal (doSwitchToNormal, which republishes mode = normal);
under ums-by-dbc the first detach only records count = 1 and lights the
waiting pattern, and a detach with count reaching >= 2 triggers the
return. -/
theorem C3_detach_dispatch (env : Env) (st : SvcState) :
    (st.gadgetMode ≠ ("ums") → onDeviceDetached env st = (st, [])) ∧
    (st.gadgetMode = ("ums") → st.umsModeType = ("ums") →
      Event.modePublish ("normal") ∈ (onDeviceDetached env st).2 ∧
      (onDeviceDetached env st).1.detachCount = 0) ∧
    (st.gadgetMode = ("ums") → st.umsModeType = ("ums-by-dbc") → st.detachCount = 0 →
      (onDeviceDetached env st).1 = { st with detachCount := 1 } ∧
      (onDeviceDetached env st).2 = [Event.ledSet ("waitingPC")]) ∧
    (st.gadgetMode = ("ums") → st.umsModeType = ("ums-by-dbc") → 1 ≤ st.detachCount →
      Event.modePublish ("normal") ∈ (onDeviceDetached env st).2 ∧
      (onDeviceDetached env st).1.detachCount = 0) := by
  refine ⟨?_, ?_, ?_, ?_⟩
  · intro h
    simp [onDeviceDetached, h]
  · intro hg hm
    have h1 : 1 ≤ st.detachCount + 1 := by omega
    simp [onDeviceDetached, hg, hm, h1, doSwitchToNormal]
  · intro hg hm hc
    simp [onDeviceDetached, hg, hm, hc]
  · intro hg hm hc
    have h1 : ¬(st.detachCount + 1 = 1) := by omega
    have h2 : 2 ≤ st.detachCount + 1 := by omega
    simp [onDeviceDetached, hg, hm, h1, h2, doSwitchToNormal]

/-- Concrete instance of C3_detach_dispatch: in ums-by-dbc mode the first
detach keeps the service in UMS with detachCount = 1. -/
theorem C3_detach_dispatch_witness :
    (onDeviceDetached env0 ((handleModeChange env0 initState ("ums-by-dbc")).1)).1
      = { (handleModeChange env0 initState ("ums-by-dbc")).1 with detachCount := 1 } ∧
    (onDeviceDetached env0 ((handleModeChange env0 initState ("ums-by-dbc")).1)).2
      = [Event.ledSet ("waitingPC")] :=
  (C3_detach_dispatch env0 ((handleModeChange env0 initState ("ums-by-dbc")).1)).2.2.1
    (by decide) (by decide) (by decide)

/-- C4: the claim says every aborted return-to-normal leaves umsModeType
empty, including the path where DiskImage.mount fails after the gadget has
switched to normal.  The code returns from that path before the
`umsModeType = ""` assignment, leaving gadgetMode = normal with
umsModeType = "ums": the claimed biconditional fails on this reachable
state. -/
theorem C4_stale_umsModeType :
    (handleModeChange envMountFail stUmsEntered ("normal")).2.2 = Res.err Err.mountErr ∧
    (handleModeChange envMountFail stUmsEntered ("normal")).1.gadgetMode = ("normal") ∧
    (handleModeChange envMountFail stUmsEntered ("normal")).1.umsModeType = ("ums") := by
  decide

/-- C5 counterexample: a `normal` request on the bus while in ums-by-dbc
with detachCount = 1 completes the return to normal but leaves
detachCount = 1, so detachCount is not reset at the end of every return to
normal. -/
theorem C5_cex_bus_return_keeps_count :
    stDbcOneDetach.gadgetMode = ("ums") ∧
    stDbcOneDetach.detachCount = 1 ∧
    (handleModeChange env0 stDbcOneDetach ("normal")).2.2 = Res.ok ∧
    (handleModeChange env0 stDbcOneDetach ("normal")).1.gadgetMode = ("normal") ∧
    (handleModeChange env0 stDbcOneDetach ("normal")).1.umsModeType = ("") ∧
    (handleModeChange env0 stDbcOneDetach ("normal")).1.detachCount = 1 := by
  decide

/-- C5 (amended): detachCount is reset to 0 on every successful transition
into UMS and at the end of every detach-triggered return to normal
(doSwitchToNormal); a return driven by a `normal` request on the bus
leaves detachCount unchanged — it is only cleared again on the next entry
into UMS. -/
theorem C5_detach_count_resets (env : Env) (st : SvcState) (mode : String) :
    ((switchToUMS env st mode).2.2 = Res.ok → (switchToUMS env st mode).1.detachCount = 0) ∧
    ((doSwitchToNormal env st).1.detachCount = 0) ∧
    (st.gadgetMode = ("ums") →
      (handleModeChange env st ("normal")).2.2 = Res.ok →
      (handleModeChange env st ("normal")).1.detachCount = st.detachCount) := by
  rcases env with ⟨mo, uo, lu, ln, de, sc, wc, fsv⟩
  refine ⟨?_, ?_, ?_⟩
  · cases mo <;> cases uo <;> cases lu <;>
      by_cases hsg : st.gadgetMode = ("ums") <;>
        simp [switchToUMS, setStatus, SwitchMode, hsg]
  · simp [doSwitchToNormal]
  · intro hg hok
    cases ln with
    | false =>
      simp [handleModeChange, switchToNormal, SwitchMode, setStatus, hg] at hok
    | true =>
      cases mo with
      | false =>
        simp [handleModeChange, switchToNormal, SwitchMode, setStatus, hg] at hok
      | true =>
        cases hnd : checkIfDBCNeeded fsv <;> cases de <;> cases uo <;>
          simp [handleModeChange, switchToNormal, SwitchMode, setStatus, hg, hnd]

/-- Concrete instance of C5_detach_count_resets: a successful entry into
UMS resets detachCount, and a detach-triggered return resets it. -/
theorem C5_detach_count_resets_witness :
    (switchToUMS env0 initState ("ums")).1.detachCount = 0 ∧
    (doSwitchToNormal env0 stUmsEntered).1.detachCount = 0 :=
  ⟨(C5_detach_count_resets env0 initState ("ums")).1 (by decide),
   (C5_detach_count_resets env0 stUmsEntered ("ums")).2.1⟩

/-- C6: in an EnterUMS transition from normal mode, the status `active` is
published strictly before the gadget controller is switched to ums; if the
unmount preceding the switch fails, or the gadget switch itself fails, the
status is restored to idle and the transition returns an error without
setting umsModeType. -/
theorem C6_enter_ums_order (env : Env) (st : SvcState) (mode : String)
    (hg : st.gadgetMode = ("normal")) :
    (env.mountOk = true → env.unmountOk = true → env.loadUmsOk = true →
      (switchToUMS env st mode).2.2 = Res.ok ∧
      seqBefore (Event.statusSet ("active")) (Event.gadgetSwitch ("ums"))
        (switchToUMS env st mode).2.1) ∧
    (env.mountOk = true → env.unmountOk = false →
      (switchToUMS env st mode).2.2 = Res.err Err.unmountErr ∧
      (switchToUMS env st mode).1.status = ("idle") ∧
      (switchToUMS env st mode).1.umsModeType = st.umsModeType) ∧
    (env.mountOk = true → env.unmountOk = true → env.loadUmsOk = false →
      (switchToUMS env st mode).2.2 = Res.err Err.switchErr ∧
      (switchToUMS env st mode).1.status = ("idle") ∧
      (switchToUMS env st mode).1.umsModeType = st.umsModeType) := by
  rcases env with ⟨mo, uo, lu, ln, de, sc, wc, fsv⟩
  refine ⟨?_, ?_, ?_⟩
  · intro hmo huo hlu
    subst hmo; subst huo; subst hlu
    constructor
    · simp [switchToUMS, setStatus, SwitchMode, hg]
    · refine ⟨[Event.statusSet ("preparing"), Event.diskMount, Event.stageOutSettings,
        Event.prepUpdateDir, Event.prepMapsDir, Event.prepWgDir, Event.stageOutWg,
        Event.diskUnmount], [Event.ledSet ("umsActive")], [], ?_⟩
      simp [switchToUMS, setStatus, SwitchMode, hg]
  · intro hmo huo
    subst hmo; subst huo
    simp [switchToUMS, setStatus, SwitchMode, hg]
  · intro hmo huo hlu
    subst hmo; subst huo; subst hlu
    simp [switchToUMS, setStatus, SwitchMode, hg]

/-- Concrete instance of C6_enter_ums_order: from the initial state with
every operation succeeding, the entry returns ok and publishes `active`
before switching the gadget. -/
theorem C6_enter_ums_order_witness :
    (switchToUMS env0 initState ("ums")).2.2 = Res.ok ∧
    seqBefore (Event.statusSet ("active")) (Event.gadgetSwitch ("ums"))
      (switchToUMS env0 initState ("ums")).2.1 :=
  (C6_enter_ums_order env0 initState ("ums") (by decide)).1 rfl rfl rfl

/-- C7: monitorLoop emits a detach only on a configured-to-not-configured
transition while the gadget mode is ums; wasConfigured is true after a
step exactly when that sample read configured in ums mode (so it is reset
whenever the mode is not ums, and an emission always follows a prior
configured sample in the same UMS session); the channel has capacity 1 and
a send on a full channel is dropped, leaving the occupancy at 1. -/
theorem C7_monitor_detach (w : Bool) (p q : Nat) (s s2 : Sample) :
    chanCap = 1 ∧
    ((monitorStep w p s).emitted = true →
      s.mode = ("ums") ∧ s.configured = false ∧ w = true) ∧
    ((monitorStep w p s).wasConfigured = true ↔ (s.mode = ("ums") ∧ s.configured = true)) ∧
    ((monitorStep false p s).emitted = false) ∧
    ((monitorStep (monitorStep w p s).wasConfigured q s2).emitted = true →
      s.mode = ("ums") ∧ s.configured = true ∧ s2.mode = ("ums") ∧ s2.configured = false) ∧
    (p ≤ 1 → (monitorStep w p s).pending ≤ 1) ∧
    (p = 1 → (monitorStep w p s).pending = 1) := by
  refine ⟨rfl, ?_, ?_, ?_, ?_, ?_, ?_⟩
  · by_cases hm : s.mode = ("ums") <;> cases hc : s.configured <;> cases w <;>
      simp [monitorStep, hm, hc]
  · by_cases hm : s.mode = ("ums") <;> cases hc : s.configured <;> cases w <;>
      simp [monitorStep, hm, hc]
  · by_cases hm : s.mode = ("ums") <;> cases hc : s.configured <;> cases w <;>
      simp [monitorStep, hm, hc]
  · by_cases hm : s.mode = ("ums") <;> by_cases hm2 : s2.mode = ("ums") <;>
      cases hc : s.configured <;> cases hc2 : s2.configured <;> cases w <;>
        simp [monitorStep, hm, hm2, hc, hc2]
  · intro hp
    by_cases hm : s.mode = ("ums") <;> cases hc : s.configured <;> cases w <;>
      simp [monitorStep, chanSend, chanCap, hm, hc] <;>
        first
          | omega
          | (split <;> omega)
  · intro hp
    subst hp
    by_cases hm : s.mode = ("ums") <;> cases hc : s.configured <;> cases w <;>
      simp [monitorStep, chanSend, chanCap, hm, hc]

/-- Concrete instance of C7_monitor_detach: a configured sample in ums
mode sets wasConfigured, and the channel capacity is 1. -/
theorem C7_monitor_detach_witness :
    chanCap = 1 ∧ (monitorStep false 0 ⟨("ums"), true⟩).wasConfigured = true :=
  ⟨(C7_monitor_detach false 0 0 ⟨("ums"), true⟩ ⟨("ums"), true⟩).1,
   ((C7_monitor_detach false 0 0 ⟨("ums"), true⟩ ⟨("ums"), true⟩).2.2.1).mpr ⟨rfl, rfl⟩⟩

/-- C8: for every non-directory file f in system-update whose name starts
with librescoot-, contains librescoot-mdb and ends in .mender or .delta
(and which names exactly one matching entry), a completed ProcessUpdates
pass copies the file to /data/ota/f, fsyncs the copy immediately before
the queue push, pushes exactly one message
update-from-file:/data/ota/f onto scooter:update:mdb, and never removes or
renames any file. -/
theorem C8_mdb_update_processing (es : List DirEntry) (f : FName)
    (hpre : hasPrefixF f updPre = true)
    (hmdb : containsF f mdbMark = true)
    (hsuf : (hasSuffixF f sufMender || hasSuffixF f sufDelta) = true)
    (hmem : (⟨f, false⟩ : DirEntry) ∈ es)
    (huniq : List.countP (mdbSel f) es = 1) :
    ContainsBlock [Event.copy (joinP updDir f) (joinP otaDir f),
                   Event.fsync (joinP otaDir f),
                   Event.queuePush ("scooter:update:mdb") (mdbMsg f)]
      (processEntries es true).1 ∧
    mdbPushCount (mdbMsg f) (processEntries es true).1 = 1 ∧
    (∀ p, Event.fsRemove p ∉ (processEntries es true).1) := by
  have hmatch : updMatch f = true := by
    simp [updMatch, hpre, hsuf]
  refine ⟨processEntries_mdb_block f es hmatch hmdb hmem, ?_, ?_⟩
  · rw [processEntries_mdb_count]
    exact huniq
  · intro p
    exact processEntries_no_remove es true p

/-- Concrete instance of C8_mdb_update_processing on a directory holding
exactly one MDB update file. -/
theorem C8_mdb_update_processing_witness :
    ContainsBlock [Event.copy (joinP updDir c8name) (joinP otaDir c8name),
                   Event.fsync (joinP otaDir c8name),
                   Event.queuePush ("scooter:update:mdb") (mdbMsg c8name)]
      (processEntries [⟨c8name, false⟩] true).1 ∧
    mdbPushCount (mdbMsg c8name) (processEntries [⟨c8name, false⟩] true).1 = 1 ∧
    (∀ p, Event.fsRemove p ∉ (processEntries [⟨c8name, false⟩] true).1) :=
  C8_mdb_update_processing [⟨c8name, false⟩] c8name (by decide) (by decide)
    (by decide) (by decide) (by decide)

/-- C9: settings stage-in is idempotent on identical byte content — a
second CopyFromUSB run over the unchanged disk reports changed = false —
and it reports changed = true exactly when the disk file exists and its
bytes are not those of a readable local file. -/
theorem C9_settings_idempotent (fs : SettingsFs) :
    (CopyFromUSB ((CopyFromUSB fs).1)).2 = false ∧
    ((CopyFromUSB fs).2 = true ↔ ∃ d, fs.usbFile = some d ∧ fs.localFile ≠ some d) := by
  rcases fs with ⟨usb, loc⟩
  cases usb with
  | none => simp [CopyFromUSB]
  | some input =>
    cases loc with
    | none => simp [CopyFromUSB]
    | some existing =>
      by_cases he : existing = input
      · subst he
        simp [CopyFromUSB]
      · simp [CopyFromUSB, he]

/-- Concrete instance of C9_settings_idempotent: a differing disk file is
reported as a change once and only once. -/
theorem C9_settings_idempotent_witness :
    (CopyFromUSB ((CopyFromUSB (⟨some [1, 2], some [3]⟩ : SettingsFs)).1)).2 = false ∧
    (CopyFromUSB (⟨some [1, 2], some [3]⟩ : SettingsFs)).2 = true :=
  ⟨(C9_settings_idempotent ⟨some [1, 2], some [3]⟩).1,
   ((C9_settings_idempotent ⟨some [1, 2], some [3]⟩).2).mpr ⟨[1, 2], rfl, by decide⟩⟩

/-- C10 counterexample: with two DBC .delta files on the disk, the second
matching file is never attempted — ProcessUpdates aborts on the first
dbcNotEnabled error — so it is not true that the processing of each such
.delta file fails with a DBC-not-enabled error. -/
theorem C10_cex_second_delta_unattempted :
    envDelta.fs.sysUpdate = some [⟨deltaName1, false⟩, ⟨deltaName2, false⟩] ∧
    updMatch deltaName2 = true ∧
    containsF deltaName2 dbcMark = true ∧
    Event.dbcAttempt deltaName1 ∈ (handleModeChange envDelta stUms10 ("normal")).2.1 ∧
    Event.dbcAttempt deltaName2 ∉ (handleModeChange envDelta stUms10 ("normal")).2.1 ∧
    (handleModeChange envDelta stUms10 ("normal")).2.2 = Res.ok := by
  decide

/-- C10 (amended): when system-update holds only DBC update files ending
in .delta (no librescoot-dbc*.mender file) and the maps scan finds no map
files, the DBC-needed scan returns false and DBCProxy.Enable is never
invoked; ProcessUpdates then fails on the first such .delta file with a
DBC-not-enabled error, leaving the remaining files unattempted, while the
return-to-normal transition still completes with status idle and an empty
umsModeType. -/
theorem C10_delta_only_dbc_updates (env : Env) (st : SvcState) (es : List DirEntry)
    (hsys : env.fs.sysUpdate = some es)
    (hmaps : mapsScan env.fs.mapsDir = false)
    (hall : ∀ e ∈ es, e.isDir = false ∧ hasPrefixF e.name updPre = true ∧
        containsF e.name dbcMark = true ∧ containsF e.name mdbMark = false ∧
        hasSuffixF e.name sufDelta = true ∧ hasSuffixF e.name sufMender = false)
    (hmode : st.gadgetMode = ("ums")) (hdbc : st.dbcEnabled = false)
    (hmo : env.mountOk = true) (hln : env.loadNormalOk = true) :
    checkIfDBCNeeded env.fs = false ∧
    Event.dbcEnable ∉ (switchToNormal env st ("ums")).2.1 ∧
    (switchToNormal env st ("ums")).2.2 = Res.ok ∧
    (switchToNormal env st ("ums")).1.status = ("idle") ∧
    (switchToNormal env st ("ums")).1.umsModeType = ("") ∧
    (∀ e rest, es = e :: rest →
      ProcessUpdates env.fs.sysUpdate false
        = ([Event.dbcAttempt e.name], Res.err Err.dbcNotEnabled)) := by
  have hscan : sysScan env.fs.sysUpdate = false := by
    rw [hsys]
    simp only [sysScan, List.any_eq_false]
    intro e he
    obtain ⟨-, -, -, -, -, hmen⟩ := hall e he
    simp [hmen]
  have hneed : checkIfDBCNeeded env.fs = false := by
    simp [checkIfDBCNeeded, hscan, hmaps]
  have hupd : ∀ e rest, es = e :: rest →
      ProcessUpdates env.fs.sysUpdate false
        = ([Event.dbcAttempt e.name], Res.err Err.dbcNotEnabled) := by
    intro e rest hes
    obtain ⟨hd, hp, hdbcm, hmdbm, hdel, -⟩ :=
      hall e (by rw [hes]; exact List.mem_cons_self e rest)
    have hm : updMatch e.name = true := by
      simp [updMatch, hp, hdel]
    rw [hsys, hes]
    simp [ProcessUpdates, processEntries, hd, hm, hmdbm, hdbcm, processDBCUpdate]
  rcases env with ⟨mo, uo, lu, ln, de, sc, wc, fsv⟩
  simp only at hsys hmaps hmo hln hneed hupd hscan
  subst hmo
  subst hln
  have hnoe := processEntries_no_enable es false
  refine ⟨hneed, ?_, ?_, ?_, ?_, hupd⟩
  · cases sc <;> cases wc <;>
      simp [switchToNormal, SwitchMode, setStatus, hmode, hneed, hdbc, hsys,
        ProcessUpdates, hnoe]
  · simp [switchToNormal, SwitchMode, setStatus, hmode, hneed]
  · simp [switchToNormal, SwitchMode, setStatus, hmode, hneed]
  · simp [switchToNormal, SwitchMode, setStatus, hmode, hneed]

/-- Concrete instance of C10_delta_only_dbc_updates on a disk with two DBC
.delta files: DBC is not needed, Enable never runs, and the scan aborts on
the first file. -/
theorem C10_delta_only_dbc_updates_witness :
    checkIfDBCNeeded envDelta.fs = false ∧
    Event.dbcEnable ∉ (switchToNormal envDelta stUms10 ("ums")).2.1 ∧
    (switchToNormal envDelta stUms10 ("ums")).2.2 = Res.ok ∧
    ProcessUpdates envDelta.fs.sysUpdate false
      = ([Event.dbcAttempt deltaName1], Res.err Err.dbcNotEnabled) :=
  have h := C10_delta_only_dbc_updates envDelta stUms10
    [⟨deltaName1, false⟩, ⟨deltaName2, false⟩] rfl (by decide) (by decide) rfl rfl rfl rfl
  ⟨h.1, h.2.1, h.2.2.1, h.2.2.2.2.2 ⟨deltaName1, false⟩ [⟨deltaName2, false⟩] rfl⟩
